import Mathlib

/-!
Shallow embedding of the orchestration layer of the repository:
the task scheduler (EnhancedAILoop in the unnamed scheduler module),
the terminal runner (terminal-runner.ts), the HTTP command routes
(terminal-routes.ts) and the preview-process manager inside
ComprehensiveAIService (comprehensive-ai-service.ts).

JavaScript Map objects are embedded as insertion-ordered association
lists with unique keys; `mapSet` mirrors Map.set (update in place,
append when absent), `eraseKey` mirrors Map.delete and `lookupKey`
mirrors Map.get.  Spawned OS processes are embedded as explicit
`ProcHandle` records carrying a pid and a killed flag.  Promise-based
timing is embedded by passing the exit time of the underlying process
explicitly and computing the resolution time of the promise.
-/

namespace Spec2Proof

/-! ### Association-list model of a JavaScript Map -/

def lookupKey {α : Type} : List (String × α) → String → Option α
  | [], _ => none
  | (k0, v0) :: rest, k => if k0 = k then some v0 else lookupKey rest k

def mapSet {α : Type} : List (String × α) → String → α → List (String × α)
  | [], k, v => [(k, v)]
  | (k0, v0) :: rest, k, v =>
      if k0 = k then (k0, v) :: rest else (k0, v0) :: mapSet rest k v

def eraseKey {α : Type} : List (String × α) → String → List (String × α)
  | [], _ => []
  | (k0, v0) :: rest, k =>
      if k0 = k then rest else (k0, v0) :: eraseKey rest k

theorem lookupKey_mapSet_self {α : Type} (m : List (String × α)) (k : String) (v : α) :
    lookupKey (mapSet m k v) k = some v := by
  induction m with
  | nil => simp [mapSet, lookupKey]
  | cons hd tl ih =>
      obtain ⟨k0, v0⟩ := hd
      by_cases h : k0 = k
      · simp [mapSet, lookupKey, h]
      · simp [mapSet, lookupKey, h, ih]

theorem lookupKey_mapSet_ne {α : Type} (m : List (String × α)) (k' k : String) (v : α)
    (h : k' ≠ k) : lookupKey (mapSet m k' v) k = lookupKey m k := by
  induction m with
  | nil => simp [mapSet, lookupKey, h]
  | cons hd tl ih =>
      obtain ⟨k0, v0⟩ := hd
      by_cases h0 : k0 = k'
      · subst h0
        simp [mapSet, lookupKey, h]
      · simp only [mapSet, if_neg h0]
        by_cases h1 : k0 = k
        · simp [lookupKey, h1]
        · simp [lookupKey, h1, ih]

theorem mapSet_absent {α : Type} (m : List (String × α)) (k : String) (v : α)
    (h : lookupKey m k = none) : mapSet m k v = m ++ [(k, v)] := by
  induction m with
  | nil => simp [mapSet]
  | cons hd tl ih =>
      obtain ⟨k0, v0⟩ := hd
      by_cases h0 : k0 = k
      · simp [lookupKey, h0] at h
      · simp only [lookupKey, if_neg h0] at h
        simp [mapSet, h0, ih h]

theorem keys_mapSet {α : Type} (m : List (String × α)) (k : String) (v : α) :
    (mapSet m k v).map Prod.fst =
      if k ∈ m.map Prod.fst then m.map Prod.fst else m.map Prod.fst ++ [k] := by
  induction m with
  | nil => simp [mapSet]
  | cons hd tl ih =>
      obtain ⟨k0, v0⟩ := hd
      by_cases h0 : k0 = k
      · subst h0
        simp [mapSet]
      · have hne : ¬ k = k0 := fun h => h0 h.symm
        by_cases hk : k ∈ tl.map Prod.fst
        · simp [mapSet, h0, ih, hk, hne]
        · simp [mapSet, h0, ih, hk, hne]

theorem nodup_keys_mapSet {α : Type} (m : List (String × α)) (k : String) (v : α)
    (h : (m.map Prod.fst).Nodup) : ((mapSet m k v).map Prod.fst).Nodup := by
  rw [keys_mapSet]
  by_cases hk : k ∈ m.map Prod.fst
  · simpa [hk] using h
  · simp only [hk, if_false]
    simp [List.nodup_append, h, hk]

/-! ### Task scheduler (EnhancedAILoop) -/

inductive TaskType
  | chat
  | fileGeneration
  | previewUpdate
deriving DecidableEq, Repr

inductive TaskPriority
  | high
  | medium
  | low
deriving DecidableEq, Repr

inductive TaskStatus
  | pending
  | processing
  | completed
  | failed
deriving DecidableEq, Repr

/-- LoopTask record.  The field `type` of the source is spelled `ttype`
(`type` is reserved in Lean); `data` is opaque in the source and only its
`userId` component is consulted by the error handler, so that component is
embedded explicitly. -/
structure LoopTask where
  id : String
  ttype : TaskType
  userId : Option String
  retries : Nat
  maxRetries : Nat
  priority : TaskPriority
  status : TaskStatus
deriving DecidableEq, Repr

inductive ChatRole
  | user
  | assistant
deriving DecidableEq, Repr

structure ChatTurn where
  role : ChatRole
  content : String
deriving DecidableEq, Repr

structure FileData where
  content : String
  language : String
deriving DecidableEq, Repr

structure ChatSession where
  userId : String
  projectId : Option String
  conversationHistory : List ChatTurn
  activeFiles : List (String × FileData)
  isGenerating : Bool
deriving DecidableEq, Repr

/-- The fixed exponential backoff table of EnhancedAILoop. -/
def retryDelays : List Nat := [1000, 2000, 4000, 8000, 16000]

/-- Delay chosen by handleTaskError for a given post-increment attempt count:
retryDelays[Math.min(task.retries - 1, retryDelays.length - 1)]. -/
def retryDelay (attempt : Nat) : Nat :=
  retryDelays.getD (min (attempt - 1) (retryDelays.length - 1)) 0

/-- The apology turn pushed on permanent failure. -/
def failureNotice : String :=
  "I encountered an issue with your request. Let me try a different approach..."

/-- Result of one invocation of handleTaskError: the mutated task, the
session map (possibly with a notification appended) and the backoff sleep
performed, if any. -/
structure ErrorStep where
  task : LoopTask
  sessions : List (String × ChatSession)
  sleptMs : Option Nat
deriving DecidableEq, Repr

/-- Embedding of EnhancedAILoop.handleTaskError: increment retries; if the
new count is within maxRetries, sleep the backoff delay and re-queue the task
as pending; otherwise mark it failed and, when the owning session is found in
the registry, append one assistant apology turn to its history. -/
def handleTaskError (task : LoopTask) (sessions : List (String × ChatSession)) :
    ErrorStep :=
  let retries := task.retries + 1
  if retries ≤ task.maxRetries then
    { task := { task with retries := retries, status := TaskStatus.pending }
      sessions := sessions
      sleptMs := some (retryDelay retries) }
  else
    let failedTask := { task with retries := retries, status := TaskStatus.failed }
    match task.userId with
    | some uid =>
        match lookupKey sessions uid with
        | some sess =>
            { task := failedTask
              sessions := mapSet sessions uid
                { sess with conversationHistory :=
                    sess.conversationHistory ++ [⟨ChatRole.assistant, failureNotice⟩] }
              sleptMs := none }
        | none => { task := failedTask, sessions := sessions, sleptMs := none }
    | none => { task := failedTask, sessions := sessions, sleptMs := none }

/-- Embedding of getPriorityValue.  The default branch of the source returns
2 for unknown strings; the priority type is closed here so it never fires. -/
def getPriorityValue : TaskPriority → Nat
  | TaskPriority.high => 1
  | TaskPriority.medium => 2
  | TaskPriority.low => 3

/-- The selection step of processPendingTasks: filter the pending tasks, sort
ascending by priority value, and take at most 3. -/
def pendingSelection (queue : List LoopTask) : List LoopTask :=
  ((queue.filter (fun t => t.status == TaskStatus.pending)).mergeSort
      (fun a b => Nat.ble (getPriorityValue a.priority) (getPriorityValue b.priority))).take 3

/-- The keyword table of isAppGenerationRequest. -/
def appKeywords : List String :=
  ["create", "build", "make", "generate", "develop", "app", "application",
   "website", "calculator", "todo", "game", "dashboard", "api", "server",
   "component", "react", "python", "javascript", "typescript", "html"]

/-! Substring search embedding JavaScript String.prototype.includes:
`startsSeq pat s` holds when `pat` is an initial segment of `s`, and
`occursIn pat s` when `pat` occurs contiguously anywhere in `s`. -/

def startsSeq : List Char → List Char → Bool
  | [], _ => true
  | _ :: _, [] => false
  | p :: ps, c :: cs => p == c && startsSeq ps cs

def occursIn (pat : List Char) : List Char → Bool
  | [] => startsSeq pat []
  | c :: cs => startsSeq pat (c :: cs) || occursIn pat cs

/-- Embedding of isAppGenerationRequest: lowercase the message, require some
keyword to occur in it and the (lowercased, hence unchanged) length to exceed
10 characters. -/
def isAppGenerationRequest (message : String) : Bool :=
  let lowerMessage := message.toList.map Char.toLower
  appKeywords.any (fun keyword => occursIn keyword.toList lowerMessage) &&
    decide (10 < lowerMessage.length)

/-- The merge loop of executeFileGeneration: each generated file is written
into the session file map with Map.set, overwriting a same-named entry and
appending a new one. -/
def mergeFiles (activeFiles : List (String × FileData))
    (newFiles : List (String × FileData)) : List (String × FileData) :=
  newFiles.foldl (fun acc kv => mapSet acc kv.fst kv.snd) activeFiles

/-! ### Terminal runner (terminal-runner.ts) -/

/-- A spawned OS process: its identifier and whether it has been sent
SIGTERM by killSession. -/
structure ProcHandle where
  pid : Nat
  killed : Bool
deriving DecidableEq, Repr

/-- TerminalSession record; the raw process object of the source is embedded
as the pid of the owned ProcHandle. -/
structure TerminalSession where
  id : String
  procPid : Nat
  cwd : String
  output : List String
  isActive : Bool
deriving DecidableEq, Repr

/-- State of the TerminalRunner singleton: the sessions map, every process
spawned so far, and a fresh-pid counter standing in for OS pid allocation. -/
structure RunnerState where
  sessions : List (String × TerminalSession)
  procs : List ProcHandle
  nextPid : Nat
deriving DecidableEq, Repr

def initRunnerState : RunnerState := ⟨[], [], 0⟩

/-- Embedding of killSession: when a session with the given id exists and is
active, its process is killed, the session is deactivated and removed from
the map, and true is returned; otherwise false.  The catch branch of the
source (kill throwing) is not modelled: killing a modelled process always
succeeds. -/
def killSession (st : RunnerState) (sessionId : String) : Bool × RunnerState :=
  match lookupKey st.sessions sessionId with
  | some sess =>
      if sess.isActive then
        (true,
         { sessions := eraseKey st.sessions sessionId
           procs := st.procs.map
             (fun p => if p.pid == sess.procPid then { p with killed := true } else p)
           nextPid := st.nextPid })
      else (false, st)
  | none => (false, st)

/-- Embedding of runCommand: first killSession on the same id, then spawn a
fresh process, register a new active session under the id, and return it.
The streamed output callbacks do not affect the runner state and are not
modelled; the command string is recorded only through the spawn itself. -/
def runCommand (st : RunnerState) (sessionId : String) (command : String)
    (cwd : String) : RunnerState × TerminalSession :=
  let st1 := (killSession st sessionId).snd
  let pid := st1.nextPid
  let sess : TerminalSession := ⟨sessionId, pid, cwd, [], true⟩
  ({ sessions := mapSet st1.sessions sessionId sess
     procs := st1.procs ++ [⟨pid, false⟩]
     nextPid := pid + 1 }, sess)

/-- The pids of processes currently bound to a session id through an active
registry entry. -/
def activePidsFor (st : RunnerState) (sessionId : String) : List Nat :=
  match lookupKey st.sessions sessionId with
  | some sess => if sess.isActive then [sess.procPid] else []
  | none => []

/-- The deny-list of isCommandSafe, verbatim from the source. -/
def dangerousCommands : List String :=
  ["rm -rf", "rmdir", "del", "format", "shutdown", "reboot", "halt",
   "kill", "killall", "dd if=", "mkfs", "fdisk", ":()\x7b :|:& \x7d;:",
   "sudo", "su", "chmod 777", "chown", "passwd", "useradd", "userdel"]

/-- Embedding of isCommandSafe: lowercase the command and return true only
when no deny-list entry occurs in it as a substring. -/
def isCommandSafe (command : String) : Bool :=
  let lowerCommand := command.toList.map Char.toLower
  !(dangerousCommands.any (fun dangerous => occursIn dangerous.toList lowerCommand))

/-- Timed embedding of runCommandAsync (the buffering, non-streaming run):
the promise resolves exactly in the exec callback, which fires when the
process exits, so the resolution time is the exit time of the process; the
function installs no timer, so a process that never exits (exitTime = none)
leaves the promise pending forever. -/
def runCommandAsyncResolveTime (exitTime : Option Nat) : Option Nat := exitTime

/-- Timed embedding of the kill behaviour of runCommandAsync: the source
contains no kill call on this path, for any process behaviour. -/
def runCommandAsyncKillsProcess (exitTime : Option Nat) : Bool :=
  match exitTime with
  | some _ => false
  | none => false

/-! ### HTTP command routes (terminal-routes.ts) -/

/-- JavaScript truthiness of an optional request-body string: undefined and
the empty string are falsy. -/
def jsTruthy (s : Option String) : Bool :=
  match s with
  | none => false
  | some str => !str.isEmpty

/-- JavaScript `s || dflt` on an optional string. -/
def jsStringOr (s : Option String) (dflt : String) : String :=
  match s with
  | none => dflt
  | some str => if str.isEmpty then dflt else str

inductive RunOutcome
  | badRequest
  | rejected
  | spawned (sessionId : String)
deriving DecidableEq, Repr

structure RunRequest where
  command : Option String
  path : Option String
  sessionId : Option String
deriving DecidableEq, Repr

/-- Embedding of the /terminal/run handler up to its side effects: missing
command or path give a 400; an unsafe command gives the security 400 before
runCommand is reached; otherwise the process is spawned under the given or a
fresh session id. -/
def terminalRunRoute (req : RunRequest) (freshId : String) : RunOutcome :=
  if jsTruthy req.command && jsTruthy req.path then
    if !isCommandSafe (jsStringOr req.command ("")) then
      RunOutcome.rejected
    else
      RunOutcome.spawned (jsStringOr req.sessionId freshId)
  else RunOutcome.badRequest

inductive ExecOutcome
  | badRequest
  | rejected
  | executed
deriving DecidableEq, Repr

/-- Embedding of the /terminal/exec handler: same request validation and
safety gate, then runCommandAsync. -/
def terminalExecRoute (command path : Option String) : ExecOutcome :=
  if jsTruthy command && jsTruthy path then
    if !isCommandSafe (jsStringOr command ("")) then
      ExecOutcome.rejected
    else
      ExecOutcome.executed
  else ExecOutcome.badRequest

/-! ### Preview process manager (ComprehensiveAIService) -/

structure LangConfig where
  ext : String
  buildCmd : Option String
  runCmd : Option String
  port : Bool
deriving DecidableEq, Repr

/-- The languageConfigs table, verbatim from the source.  A null buildCmd or
runCmd is embedded as none; no entry has an empty-string command, so option
emptiness coincides with JavaScript falsiness of the field. -/
def languageConfigs (language : String) : Option LangConfig :=
  if language == "html" then some ⟨".html", none, some ("serve"), true⟩
  else if language == "css" then some ⟨".css", none, none, false⟩
  else if language == "javascript" then some ⟨".js", some ("npm run build"), some ("npm run dev"), true⟩
  else if language == "typescript" then some ⟨".ts", some ("npm run build"), some ("npm run dev"), true⟩
  else if language == "react" then some ⟨".tsx", some ("npm run build"), some ("npm run dev"), true⟩
  else if language == "vue" then some ⟨".vue", some ("npm run build"), some ("npm run dev"), true⟩
  else if language == "angular" then some ⟨".ts", some ("ng build"), some ("ng serve"), true⟩
  else if language == "node" then some ⟨".js", some ("npm run build"), some ("npm start"), true⟩
  else if language == "python" then some ⟨".py", none, some ("python main.py"), true⟩
  else if language == "java" then some ⟨".java", some ("mvn compile"), some ("mvn exec:java"), true⟩
  else if language == "csharp" then some ⟨".cs", some ("dotnet build"), some ("dotnet run"), true⟩
  else if language == "cpp" then some ⟨".cpp", some ("g++ -o main main.cpp"), some ("./main"), false⟩
  else if language == "go" then some ⟨".go", some ("go build"), some ("go run main.go"), true⟩
  else if language == "ruby" then some ⟨".rb", none, some ("ruby main.rb"), true⟩
  else if language == "php" then some ⟨".php", none, some ("php -S localhost:8000"), true⟩
  else if language == "rust" then some ⟨".rs", some ("cargo build"), some ("cargo run"), true⟩
  else if language == "swift" then some ⟨".swift", some ("swift build"), some ("swift run"), false⟩
  else if language == "kotlin" then some ⟨".kt", some ("kotlinc"), some ("kotlin"), false⟩
  else if language == "dart" then some ⟨".dart", some ("flutter build"), some ("flutter run"), true⟩
  else if language == "flutter" then some ⟨".dart", some ("flutter build web"), some ("flutter run -d web-server"), true⟩
  else if language == "unity" then some ⟨".cs", none, none, false⟩
  else if language == "unreal" then some ⟨".cpp", none, none, false⟩
  else if language == "godot" then some ⟨".gd", none, none, false⟩
  else if language == "r" then some ⟨".R", none, some ("Rscript main.R"), false⟩
  else if language == "sql" then some ⟨".sql", none, none, false⟩
  else if language == "json" then some ⟨".json", none, none, false⟩
  else if language == "yaml" then some ⟨".yaml", none, none, false⟩
  else if language == "xml" then some ⟨".xml", none, none, false⟩
  else if language == "markdown" then some ⟨".md", none, none, false⟩
  else if language == "text" then some ⟨".txt", none, none, false⟩
  else none

structure PreviewServer where
  id : String
  port : Nat
  projectPath : String
  language : String
deriving DecidableEq, Repr

/-- The previewServers map of the service. -/
structure PreviewState where
  servers : List (String × PreviewServer)
deriving DecidableEq, Repr

def basePort : Nat := 3001

/-- Embedding of startPreviewServer: when the language has no config, no run
command or no port requirement, return undefined and leave the registry
unchanged; otherwise allocate port basePort + previewServers.size, register
the server under the project id and resolve the localhost address.  The
spawn, its log capture and the 3-second grace timer do not affect the
registry and are elided. -/
def startPreviewServer (st : PreviewState) (projectId : String)
    (projectPath : String) (language : String) : PreviewState × Option String :=
  match languageConfigs language with
  | none => (st, none)
  | some cfg =>
      match cfg.runCmd with
      | none => (st, none)
      | some _ =>
          if cfg.port then
            let port := basePort + st.servers.length
            (⟨mapSet st.servers projectId ⟨projectId, port, projectPath, language⟩⟩,
             some ("http://localhost:" ++ toString port))
          else (st, none)

/-- Embedding of stopPreviewServer: kill the process (not tracked here) and
delete the registry entry; a missing id is a no-op. -/
def stopPreviewServer (st : PreviewState) (projectId : String) : PreviewState :=
  match lookupKey st.servers projectId with
  | some _ => ⟨eraseKey st.servers projectId⟩
  | none => st

structure ServerInfo where
  id : String
  port : Nat
  url : String
  language : String
deriving DecidableEq, Repr

/-- Embedding of getActiveServers: snapshot of the registry values. -/
def getActiveServers (st : PreviewState) : List ServerInfo :=
  st.servers.map (fun kv =>
    ⟨kv.snd.id, kv.snd.port, "http://localhost:" ++ toString kv.snd.port, kv.snd.language⟩)

/-- The port list of the registered previews, in registry order. -/
def portsOf (st : PreviewState) : List Nat :=
  st.servers.map (fun kv => kv.snd.port)

/-- States of the preview manager reachable from the empty registry by
launches of fresh project ids only (no stop between launches). -/
inductive FreshLaunchReachable : PreviewState → Prop
  | init : FreshLaunchReachable ⟨[]⟩
  | launch (st : PreviewState) (projectId projectPath language : String) :
      FreshLaunchReachable st →
      lookupKey st.servers projectId = none →
      FreshLaunchReachable (startPreviewServer st projectId projectPath language).fst

/-- Timeout constant of executeCommand. -/
def execTimeoutMs : Nat := 60000

/-- Timed embedding of executeCommand (the setup-step runner of the
service): the exec callback settles the promise at the process exit time,
and an unconditional setTimeout at 60000 ms kills the process and resolves;
whichever happens first determines the resolution time. -/
def executeCommandResolveTime (exitTime : Option Nat) : Nat :=
  match exitTime with
  | some t => min t execTimeoutMs
  | none => execTimeoutMs

/-- Whether the 60-second timer of executeCommand force-kills a process that
is still running: exactly when the process has not exited by the timeout. -/
def executeCommandKillsAtTimeout (exitTime : Option Nat) : Bool :=
  match exitTime with
  | some t => decide (execTimeoutMs < t)
  | none => true

/-! ### Theorems for the claims -/

/-- Claim C3: the retry delay chosen before the nth re-queue equals the
backoff table entry 1000, 2000, 4000, 8000, 16000 ms for attempts 1..5, every
attempt beyond the fifth reuses the last entry 16000 ms, and handleTaskError
sleeps exactly retryDelays[min(attempt-1, len-1)] before re-queueing. -/
theorem c3_retry_backoff_table :
    retryDelay 1 = 1000 ∧ retryDelay 2 = 2000 ∧ retryDelay 3 = 4000 ∧
    retryDelay 4 = 8000 ∧ retryDelay 5 = 16000 ∧
    (∀ attempt : Nat, 6 ≤ attempt → retryDelay attempt = 16000) ∧
    (∀ (task : LoopTask) (sessions : List (String × ChatSession)),
        task.retries + 1 ≤ task.maxRetries →
        (handleTaskError task sessions).sleptMs = some (retryDelay (task.retries + 1))) := by
  refine ⟨rfl, rfl, rfl, rfl, rfl, ?_, ?_⟩
  · intro attempt h
    have h4 : min (attempt - 1) (retryDelays.length - 1) = 4 := by
      simp only [retryDelays, List.length_cons, List.length_nil]
      omega
    rw [retryDelay, h4]
    rfl
  · intro task sessions h
    simp [handleTaskError, h]

/-- Witness for C3: attempt 7 reuses the 16000 ms entry, and a first failure
of a fresh chat task sleeps the first table entry. -/
theorem c3_retry_backoff_table_witness :
    retryDelay 7 = 16000 ∧
    (handleTaskError ⟨"t1", TaskType.chat, some ("u1"), 0, 2, TaskPriority.medium,
        TaskStatus.processing⟩ []).sleptMs = some (retryDelay (0 + 1)) :=
  ⟨c3_retry_backoff_table.2.2.2.2.2.1 7 (by decide),
   c3_retry_backoff_table.2.2.2.2.2.2
     ⟨"t1", TaskType.chat, some ("u1"), 0, 2, TaskPriority.medium, TaskStatus.processing⟩
     [] (by decide)⟩

/-- Claim C7: a message is classified as a generation request exactly when
some keyword of the fixed set occurs in its lowercasing and its length
exceeds 10 characters; in particular the 8-character message containing the
keyword build is classified as plain chat. -/
theorem c7_generation_request_classification :
    (∀ message : String,
        isAppGenerationRequest message = true ↔
          ((∃ keyword ∈ appKeywords,
              occursIn keyword.toList (message.toList.map Char.toLower) = true) ∧
            10 < message.length)) ∧
    isAppGenerationRequest ("build it") = false ∧
    occursIn (("build" : String).toList) (("build it" : String).toList) = true ∧
    ("build it" : String).length = 8 := by
  refine ⟨?_, by decide, by decide, by decide⟩
  intro message
  simp only [isAppGenerationRequest, Bool.and_eq_true, List.any_eq_true,
    decide_eq_true_eq, List.length_map]
  exact Iff.rfl

/-- Claim C8: the command rm -rf / fails the safety filter, and the
/terminal/run handler answers with the security rejection, an outcome on
which no process is ever spawned. -/
theorem c8_rm_rf_rejected_before_spawn :
    isCommandSafe ("rm -rf /") = false ∧
    (∀ freshId : String,
        terminalRunRoute ⟨some ("rm -rf /"), some ("/workspace"), none⟩ freshId =
          RunOutcome.rejected) ∧
    terminalExecRoute (some ("rm -rf /")) (some ("/workspace")) = ExecOutcome.rejected :=
  ⟨rfl, fun _ => rfl, rfl⟩

/-- Claim C10: the deny check of isCommandSafe is a bare case-insensitive
substring test, so every command containing a deny-list entry anywhere is
classified unsafe; the benign commands npm install suspense and echo result
(both containing su) and skill list (containing kill) are rejected, and the
run and exec endpoints answer with the rejection before spawning. -/
theorem c10_denylist_bare_substring :
    (∀ (command dangerous : String), dangerous ∈ dangerousCommands →
        occursIn dangerous.toList (command.toList.map Char.toLower) = true →
        isCommandSafe command = false) ∧
    isCommandSafe ("npm install suspense") = false ∧
    isCommandSafe ("echo result") = false ∧
    isCommandSafe ("skill list") = false ∧
    (∀ freshId : String,
        terminalRunRoute ⟨some ("npm install suspense"), some ("/workspace"), none⟩ freshId =
          RunOutcome.rejected) ∧
    terminalExecRoute (some ("skill list")) (some ("/workspace")) = ExecOutcome.rejected := by
  refine ⟨?_, by decide, by decide, by decide, fun _ => rfl, rfl⟩
  intro command dangerous hmem hocc
  simp only [isCommandSafe, Bool.not_eq_false', List.any_eq_true]
  exact ⟨dangerous, hmem, hocc⟩

/-- Witness for C10: the filter applied to a command containing sudo. -/
theorem c10_denylist_bare_substring_witness :
    isCommandSafe ("sudo make me a sandwich") = false :=
  c10_denylist_bare_substring.1 ("sudo make me a sandwich") ("sudo")
    (by decide) (by decide)

/-- Claim C9: merging generated files is monotonic with per-key overwrite:
the two scenario merges of the spec hold, a merge never changes the binding
of a key absent from the merged batch, and key uniqueness is preserved. -/
theorem c9_files_merge_monotonic :
    (∀ x y : FileData,
        mergeFiles (mergeFiles [] [(("a" : String), x)]) [(("b" : String), y)] =
          [(("a" : String), x), (("b" : String), y)]) ∧
    (∀ x z : FileData,
        mergeFiles (mergeFiles [] [(("a" : String), x)]) [(("a" : String), z)] =
          [(("a" : String), z)]) ∧
    (∀ (m newFiles : List (String × FileData)) (k : String),
        k ∉ newFiles.map Prod.fst →
        lookupKey (mergeFiles m newFiles) k = lookupKey m k) ∧
    (∀ (m newFiles : List (String × FileData)),
        (m.map Prod.fst).Nodup → ((mergeFiles m newFiles).map Prod.fst).Nodup) := by
  have hab : (("a" : String) = ("b" : String)) = False := by simp
  refine ⟨?_, ?_, ?_, ?_⟩
  · intro x y
    simp [mergeFiles, mapSet, hab]
  · intro x z
    simp [mergeFiles, mapSet]
  · intro m newFiles k
    induction newFiles generalizing m with
    | nil => intro _; rfl
    | cons hd tl ih =>
        intro hk
        simp only [List.map_cons, List.mem_cons, not_or] at hk
        have step : mergeFiles m (hd :: tl) = mergeFiles (mapSet m hd.fst hd.snd) tl := rfl
        rw [step, ih (mapSet m hd.fst hd.snd) (by simpa using hk.2)]
        exact lookupKey_mapSet_ne m hd.fst k hd.snd (fun h => hk.1 h.symm)
  · intro m newFiles
    induction newFiles generalizing m with
    | nil => intro h; exact h
    | cons hd tl ih =>
        intro h
        have step : mergeFiles m (hd :: tl) = mergeFiles (mapSet m hd.fst hd.snd) tl := rfl
        rw [step]
        exact ih (mapSet m hd.fst hd.snd) (nodup_keys_mapSet m hd.fst hd.snd h)

/-- Witness for C9: merging a batch not containing key a leaves the binding
of a unchanged, and key uniqueness survives a concrete merge. -/
theorem c9_files_merge_monotonic_witness :
    lookupKey (mergeFiles [(("a" : String), (⟨"x", "javascript"⟩ : FileData))]
        [(("b" : String), (⟨"y", "javascript"⟩ : FileData))]) ("a") =
      lookupKey [(("a" : String), (⟨"x", "javascript"⟩ : FileData))] ("a") ∧
    ((mergeFiles [(("a" : String), (⟨"x", "javascript"⟩ : FileData))]
        [(("b" : String), (⟨"y", "javascript"⟩ : FileData))]).map Prod.fst).Nodup :=
  ⟨c9_files_merge_monotonic.2.2.1 [(("a"), ⟨"x", "javascript"⟩)]
      [(("b"), ⟨"y", "javascript"⟩)] ("a") (by decide),
   c9_files_merge_monotonic.2.2.2 [(("a"), ⟨"x", "javascript"⟩)]
      [(("b"), ⟨"y", "javascript"⟩)] (by decide)⟩

/-- Claim C2: the scheduler selects only pending tasks for execution, a task
left re-selectable by the error handler never has its attempt count above
its limit, and a failure pushing the count past the limit marks the task
failed and appends exactly one assistant notification turn to the owning
session history. -/
theorem c2_attempt_limit_and_failure_notification :
    (∀ (queue : List LoopTask) (t : LoopTask),
        t ∈ pendingSelection queue → t.status = TaskStatus.pending) ∧
    (∀ (task : LoopTask) (sessions : List (String × ChatSession)),
        (handleTaskError task sessions).task.status = TaskStatus.pending →
        (handleTaskError task sessions).task.retries ≤
          (handleTaskError task sessions).task.maxRetries) ∧
    (∀ (task : LoopTask) (sessions : List (String × ChatSession))
        (uid : String) (sess : ChatSession),
        task.userId = some uid →
        lookupKey sessions uid = some sess →
        task.maxRetries < task.retries + 1 →
        (handleTaskError task sessions).task.status = TaskStatus.failed ∧
        lookupKey (handleTaskError task sessions).sessions uid =
          some { sess with conversationHistory :=
              sess.conversationHistory ++ [⟨ChatRole.assistant, failureNotice⟩] }) := by
  refine ⟨?_, ?_, ?_⟩
  · intro queue t ht
    have h1 := List.mem_of_mem_take ht
    rw [List.mem_mergeSort] at h1
    have h2 := List.of_mem_filter h1
    simpa using h2
  · intro task sessions
    by_cases h : task.retries + 1 ≤ task.maxRetries
    · simp [handleTaskError, h]
    · intro hcon
      exfalso
      have hstat : (handleTaskError task sessions).task.status = TaskStatus.failed := by
        cases hu : task.userId with
        | none => simp [handleTaskError, h, hu]
        | some uid =>
            cases hl : lookupKey sessions uid with
            | none => simp [handleTaskError, h, hu, hl]
            | some sess => simp [handleTaskError, h, hu, hl]
      rw [hstat] at hcon
      exact absurd hcon (by simp)
  · intro task sessions uid sess hu hl hover
    have h : ¬ (task.retries + 1 ≤ task.maxRetries) := by omega
    refine ⟨by simp [handleTaskError, h, hu, hl], ?_⟩
    simp only [handleTaskError, if_neg h, hu, hl]
    exact lookupKey_mapSet_self sessions uid _

/-- Witness for C2: a generation task on its fourth failure with limit 3 is
failed and its owner, registered in the session map, receives exactly one
apology turn; a second-failure chat task stays within its limit. -/
theorem c2_attempt_limit_and_failure_notification_witness :
    ((handleTaskError ⟨"t2", TaskType.chat, some ("u2"), 0, 2, TaskPriority.medium,
        TaskStatus.processing⟩ []).task.retries ≤
      (handleTaskError ⟨"t2", TaskType.chat, some ("u2"), 0, 2, TaskPriority.medium,
        TaskStatus.processing⟩ []).task.maxRetries) ∧
    ((handleTaskError ⟨"t3", TaskType.fileGeneration, some ("u3"), 3, 3, TaskPriority.high,
        TaskStatus.processing⟩
        [(("u3"), ⟨"u3", none, [⟨ChatRole.user, "hi"⟩], [], false⟩)]).task.status =
      TaskStatus.failed ∧
      lookupKey (handleTaskError ⟨"t3", TaskType.fileGeneration, some ("u3"), 3, 3,
          TaskPriority.high, TaskStatus.processing⟩
          [(("u3"), ⟨"u3", none, [⟨ChatRole.user, "hi"⟩], [], false⟩)]).sessions ("u3") =
        some ⟨"u3", none, [⟨ChatRole.user, "hi"⟩] ++ [⟨ChatRole.assistant, failureNotice⟩],
          [], false⟩) :=
  ⟨c2_attempt_limit_and_failure_notification.2.1
      ⟨"t2", TaskType.chat, some ("u2"), 0, 2, TaskPriority.medium, TaskStatus.processing⟩
      [] (by decide),
   c2_attempt_limit_and_failure_notification.2.2
      ⟨"t3", TaskType.fileGeneration, some ("u3"), 3, 3, TaskPriority.high,
        TaskStatus.processing⟩
      [(("u3"), ⟨"u3", none, [⟨ChatRole.user, "hi"⟩], [], false⟩)]
      ("u3") ⟨"u3", none, [⟨ChatRole.user, "hi"⟩], [], false⟩ rfl rfl (by decide)⟩

/-! Helper lemmas about the terminal runner used by claim C6. -/

theorem killSession_nextPid (st : RunnerState) (sid : String) :
    (killSession st sid).snd.nextPid = st.nextPid := by
  unfold killSession
  cases lookupKey st.sessions sid with
  | none => rfl
  | some sess => cases hb : sess.isActive <;> simp [hb]

theorem runCommand_snd (st : RunnerState) (sid cmd cwd : String) :
    (runCommand st sid cmd cwd).snd = ⟨sid, st.nextPid, cwd, [], true⟩ := by
  simp [runCommand, killSession_nextPid]

theorem runCommand_fst_nextPid (st : RunnerState) (sid cmd cwd : String) :
    (runCommand st sid cmd cwd).fst.nextPid = st.nextPid + 1 := by
  simp [runCommand, killSession_nextPid]

theorem runCommand_fst_procs (st : RunnerState) (sid cmd cwd : String) :
    (runCommand st sid cmd cwd).fst.procs =
      (killSession st sid).snd.procs ++ [⟨st.nextPid, false⟩] := by
  simp [runCommand, killSession_nextPid]

theorem runCommand_fst_sessions (st : RunnerState) (sid cmd cwd : String) :
    (runCommand st sid cmd cwd).fst.sessions =
      mapSet (killSession st sid).snd.sessions sid ⟨sid, st.nextPid, cwd, [], true⟩ := by
  simp [runCommand, killSession_nextPid]

theorem lookupKey_runCommand_self (st : RunnerState) (sid cmd cwd : String) :
    lookupKey (runCommand st sid cmd cwd).fst.sessions sid =
      some (runCommand st sid cmd cwd).snd := by
  rw [runCommand_fst_sessions, runCommand_snd]
  exact lookupKey_mapSet_self _ _ _

theorem killSession_procs_of_active (st : RunnerState) (sid : String)
    (sess : TerminalSession) (h : lookupKey st.sessions sid = some sess)
    (ha : sess.isActive = true) :
    (killSession st sid).snd.procs =
      st.procs.map
        (fun p => if p.pid == sess.procPid then { p with killed := true } else p) := by
  unfold killSession
  rw [h]
  simp [ha]

theorem filter_killed_all (procs : List ProcHandle) (target : Nat) :
    ((procs.map
        (fun p => if p.pid == target then { p with killed := true } else p)).filter
      (fun p => p.pid == target)).all (fun p => p.killed) = true := by
  induction procs with
  | nil => rfl
  | cons hd tl ih =>
      rcases hd with ⟨hpid, hk⟩
      by_cases h : hpid = target
      · subst h
        simpa using ih
      · simpa [h] using ih

/-- Claim C6: a session id maps to at most one active process at any
instant, and a second run under the same id spawns a strictly newer process
while every process bound to the first run is marked killed in the final
state; the registry entry for the id afterwards is exactly the second
session, so only the second process is the one whose events reach the
registered session. -/
theorem c6_session_process_replacement :
    (∀ (st : RunnerState) (sessionId : String),
        (activePidsFor st sessionId).length ≤ 1) ∧
    (∀ (st st1 st2 : RunnerState) (s1 s2 : TerminalSession)
        (sid cmd1 cmd2 cwd1 cwd2 : String),
        runCommand st sid cmd1 cwd1 = (st1, s1) →
        runCommand st1 sid cmd2 cwd2 = (st2, s2) →
        s2.procPid = s1.procPid + 1 ∧
        (st2.procs.filter (fun p => p.pid == s1.procPid)).all
          (fun p => p.killed) = true ∧
        lookupKey st2.sessions sid = some s2 ∧
        s2.isActive = true) := by
  refine ⟨?_, ?_⟩
  · intro st sessionId
    unfold activePidsFor
    cases lookupKey st.sessions sessionId with
    | none => simp
    | some sess => cases hb : sess.isActive <;> simp [hb]
  · intro st st1 st2 s1 s2 sid cmd1 cmd2 cwd1 cwd2 h1 h2
    have hs1 : s1 = ⟨sid, st.nextPid, cwd1, [], true⟩ := by
      have h := congrArg Prod.snd h1
      rw [runCommand_snd] at h
      exact h.symm
    have hst1 : st1 = (runCommand st sid cmd1 cwd1).fst :=
      (congrArg Prod.fst h1).symm
    have hs2 : s2 = ⟨sid, st1.nextPid, cwd2, [], true⟩ := by
      have h := congrArg Prod.snd h2
      rw [runCommand_snd] at h
      exact h.symm
    have hst2 : st2 = (runCommand st1 sid cmd2 cwd2).fst :=
      (congrArg Prod.fst h2).symm
    have hnext1 : st1.nextPid = st.nextPid + 1 := by
      rw [hst1, runCommand_fst_nextPid]
    have hlook : lookupKey st1.sessions sid = some s1 := by
      rw [hst1, lookupKey_runCommand_self, h1]
    have ha : s1.isActive = true := by rw [hs1]
    refine ⟨?_, ?_, ?_, ?_⟩
    · rw [hs2, hs1, hnext1]
    · rw [hst2, runCommand_fst_procs,
        killSession_procs_of_active st1 sid s1 hlook ha,
        List.filter_append, List.all_append]
      have hone : (([⟨st1.nextPid, false⟩] : List ProcHandle).filter
          (fun p => p.pid == s1.procPid)).all (fun p => p.killed) = true := by
        have hne : (st1.nextPid == s1.procPid) = false := by
          rw [hnext1, hs1]
          simp
        simp [List.filter_cons, hne]
      rw [filter_killed_all st1.procs s1.procPid, hone]
      rfl
    · rw [hst2, lookupKey_runCommand_self, h2]
    · rw [hs2]

/-- Witness for C6: two consecutive runs under session id s1 from the empty
runner state: the first process (pid 0) is killed and the registered session
is the active second one (pid 1). -/
theorem c6_session_process_replacement_witness :
    (runCommand (runCommand initRunnerState ("s1") ("c1") ("/w")).fst
        ("s1") ("c2") ("/w")).snd.procPid =
      (runCommand initRunnerState ("s1") ("c1") ("/w")).snd.procPid + 1 ∧
    ((runCommand (runCommand initRunnerState ("s1") ("c1") ("/w")).fst
        ("s1") ("c2") ("/w")).fst.procs.filter
      (fun p => p.pid == (runCommand initRunnerState ("s1") ("c1") ("/w")).snd.procPid)).all
      (fun p => p.killed) = true ∧
    lookupKey (runCommand (runCommand initRunnerState ("s1") ("c1") ("/w")).fst
        ("s1") ("c2") ("/w")).fst.sessions ("s1") =
      some (runCommand (runCommand initRunnerState ("s1") ("c1") ("/w")).fst
        ("s1") ("c2") ("/w")).snd ∧
    (runCommand (runCommand initRunnerState ("s1") ("c1") ("/w")).fst
        ("s1") ("c2") ("/w")).snd.isActive = true :=
  c6_session_process_replacement.2 initRunnerState
    ((runCommand initRunnerState ("s1") ("c1") ("/w")).fst)
    ((runCommand (runCommand initRunnerState ("s1") ("c1") ("/w")).fst
        ("s1") ("c2") ("/w")).fst)
    ((runCommand initRunnerState ("s1") ("c1") ("/w")).snd)
    ((runCommand (runCommand initRunnerState ("s1") ("c1") ("/w")).fst
        ("s1") ("c2") ("/w")).snd)
    ("s1") ("c1") ("c2") ("/w") ("/w") rfl rfl

/-- Preview-manager state reached by launching p1 and p2, stopping p1, and
launching p3: the launch of p3 allocates basePort + size over the shrunken
registry and collides with the still-live p2. -/
def portReuseState : PreviewState :=
  let s1 := (startPreviewServer ⟨[]⟩ ("p1") ("/w/p1") ("javascript")).fst
  let s2 := (startPreviewServer s1 ("p2") ("/w/p2") ("javascript")).fst
  let s3 := stopPreviewServer s2 ("p1")
  (startPreviewServer s3 ("p3") ("/w/p3") ("javascript")).fst

/-- Counterexample to claim C1 as stated: after the interleaving
launch p1, launch p2, stop p1, launch p3, the two simultaneously live
previews p2 and p3 both hold port 3002. -/
theorem c1_port_reuse_counterexample :
    (lookupKey portReuseState.servers ("p2")).map PreviewServer.port = some 3002 ∧
    (lookupKey portReuseState.servers ("p3")).map PreviewServer.port = some 3002 ∧
    portsOf portReuseState = [3002, 3002] ∧
    decide ((portsOf portReuseState).Nodup) = false := by
  refine ⟨rfl, rfl, rfl, by decide⟩

/-- Invariant behind the amended C1: along fresh-id launch-only histories
every registered port is below basePort + registry size, and the ports are
pairwise distinct. -/
theorem fresh_launch_ports_bound_nodup (st : PreviewState)
    (h : FreshLaunchReachable st) :
    (∀ p ∈ portsOf st, p < basePort + st.servers.length) ∧ (portsOf st).Nodup := by
  induction h with
  | init => simp [portsOf]
  | launch st projectId projectPath language hr hfresh ih =>
      cases hc : languageConfigs language with
      | none => simpa [startPreviewServer, hc] using ih
      | some cfg =>
          cases hrc : cfg.runCmd with
          | none => simpa [startPreviewServer, hc, hrc] using ih
          | some rc =>
              cases hp : cfg.port with
              | false => simpa [startPreviewServer, hc, hrc, hp] using ih
              | true =>
                  have hms := mapSet_absent st.servers projectId
                    ⟨projectId, basePort + st.servers.length, projectPath, language⟩ hfresh
                  have hstep : (startPreviewServer st projectId projectPath language).fst =
                      ⟨st.servers ++
                        [(projectId,
                          ⟨projectId, basePort + st.servers.length, projectPath, language⟩)]⟩ := by
                    simp [startPreviewServer, hc, hrc, hp, hms]
                  rw [hstep]
                  have hports : portsOf
                      ⟨st.servers ++
                        [(projectId,
                          ⟨projectId, basePort + st.servers.length, projectPath, language⟩)]⟩ =
                      portsOf st ++ [basePort + st.servers.length] := by
                    simp [portsOf]
                  rw [hports]
                  constructor
                  · intro p hps
                    rcases List.mem_append.mp hps with hold | hnew
                    · have := ih.1 p hold
                      simp only [List.length_append, List.length_cons, List.length_nil]
                      omega
                    · simp only [List.mem_singleton] at hnew
                      subst hnew
                      simp only [List.length_append, List.length_cons, List.length_nil]
                      omega
                  · rw [List.nodup_append]
                    refine ⟨ih.2, List.nodup_singleton _, ?_⟩
                    intro p hpold hpnew
                    simp only [List.mem_singleton] at hpnew
                    subst hpnew
                    exact absurd (ih.1 _ hpold) (by omega)

/-- Claim C1 amended: for every preview-manager state reachable from the
empty registry by launches of fresh project ids with no intervening stop,
no two live previews hold the same port; the counterexample shows the
original unrestricted interleaving claim fails once a stop precedes a
launch. -/
theorem c1_live_preview_ports_distinct (st : PreviewState)
    (h : FreshLaunchReachable st) : (portsOf st).Nodup :=
  (fresh_launch_ports_bound_nodup st h).2

/-- Witness for the amended C1: two fresh launches from the empty registry
yield pairwise distinct ports. -/
theorem c1_live_preview_ports_distinct_witness :
    (portsOf (startPreviewServer
        (startPreviewServer ⟨[]⟩ ("p1") ("/w/p1") ("javascript")).fst
        ("p2") ("/w/p2") ("javascript")).fst).Nodup :=
  c1_live_preview_ports_distinct _
    (FreshLaunchReachable.launch _ ("p2") ("/w/p2") ("javascript")
      (FreshLaunchReachable.launch ⟨[]⟩ ("p1") ("/w/p1") ("javascript")
        FreshLaunchReachable.init (by decide))
      (by decide))

/-- Counterexample to claim C4 as stated: the html language config does
declare a run command (serve) and a port requirement, so launching an html
preview returns the allocated address and the listing does contain the
project id. -/
theorem c4_html_preview_counterexample :
    (startPreviewServer ⟨[]⟩ ("p1") ("/w/p1") ("html")).snd =
      some ("http://localhost:3001") ∧
    (getActiveServers (startPreviewServer ⟨[]⟩ ("p1") ("/w/p1") ("html")).fst).map
      ServerInfo.id = [("p1")] ∧
    (languageConfigs ("html")).map LangConfig.runCmd = some (some ("serve")) :=
  ⟨rfl, rfl, rfl⟩

/-- Claim C4 amended: a language whose config declares no run command or no
port requirement yields no preview address and leaves the registry
untouched; css is such a language, and launching it from the empty registry
leaves the listing empty, whereas html does declare the run command serve. -/
theorem c4_no_runnable_no_preview :
    (∀ (st : PreviewState) (projectId projectPath language : String) (cfg : LangConfig),
        languageConfigs language = some cfg →
        (cfg.runCmd = none ∨ cfg.port = false) →
        startPreviewServer st projectId projectPath language = (st, none)) ∧
    (∀ (st : PreviewState) (projectId projectPath : String),
        startPreviewServer st projectId projectPath ("css") = (st, none)) ∧
    (∀ projectPath : String,
        (getActiveServers (startPreviewServer ⟨[]⟩ ("p1") projectPath ("css")).fst).map
          ServerInfo.id = []) := by
  refine ⟨?_, fun st projectId projectPath => rfl, fun projectPath => rfl⟩
  intro st projectId projectPath language cfg hcfg hcase
  rcases hcase with hrc | hp
  · simp [startPreviewServer, hcfg, hrc]
  · cases hrc : cfg.runCmd with
    | none => simp [startPreviewServer, hcfg, hrc]
    | some rc => simp [startPreviewServer, hcfg, hrc, hp]

/-- Witness for the amended C4: markdown declares no run command and no
port, and launching it returns the unchanged registry and no address. -/
theorem c4_no_runnable_no_preview_witness :
    startPreviewServer ⟨[]⟩ ("p1") ("/w/p1") ("markdown") = (⟨[]⟩, none) :=
  c4_no_runnable_no_preview.1 ⟨[]⟩ ("p1") ("/w/p1") ("markdown")
    ⟨".md", none, none, false⟩ rfl (Or.inl rfl)

/-- Counterexample to claim C5 as stated: runCommandAsync, the buffering
run operation returning stdout, stderr and exit code, installs no timer: a
process exiting after 120000 ms resolves only then, past the claimed 60000
ms ceiling, a process that never exits never resolves, and no force-kill
happens on this path. -/
theorem c5_no_ceiling_counterexample :
    runCommandAsyncResolveTime (some 120000) = some 120000 ∧
    decide (120000 ≤ execTimeoutMs) = false ∧
    runCommandAsyncResolveTime none = none ∧
    runCommandAsyncKillsProcess (some 120000) = false ∧
    runCommandAsyncKillsProcess none = false :=
  ⟨rfl, by decide, rfl, rfl, rfl⟩

/-- Claim C5 amended: the 60-second force-kill ceiling belongs to the
internal executeCommand helper used for the dependency-setup steps: it
always resolves within 60000 ms and kills any process still running at the
timeout, while runCommandAsync resolves exactly when the process exits. -/
theorem c5_setup_command_ceiling :
    (∀ exitTime : Option Nat, executeCommandResolveTime exitTime ≤ execTimeoutMs) ∧
    (∀ t : Nat, execTimeoutMs < t → executeCommandKillsAtTimeout (some t) = true) ∧
    executeCommandKillsAtTimeout none = true ∧
    (∀ exitTime : Option Nat, runCommandAsyncResolveTime exitTime = exitTime) := by
  refine ⟨?_, ?_, rfl, fun exitTime => rfl⟩
  · intro exitTime
    cases exitTime with
    | none => exact Nat.le_refl _
    | some t => exact Nat.min_le_right _ _
  · intro t ht
    simp [executeCommandKillsAtTimeout, ht]

/-- Witness for the amended C5: a process exiting at 120000 ms is resolved
by executeCommand within the ceiling and is force-killed at the timeout. -/
theorem c5_setup_command_ceiling_witness :
    executeCommandResolveTime (some 120000) ≤ execTimeoutMs ∧
    executeCommandKillsAtTimeout (some 120000) = true :=
  ⟨c5_setup_command_ceiling.1 (some 120000),
   c5_setup_command_ceiling.2.1 120000 (by decide)⟩

end Spec2Proof
